import Mathlib

/-!
# SiteScribe capture pipeline — verification of spec claims

Shallow embedding of the core capture-orchestration code of the
`sitescribe` browser extension:

* `screenshotRateLimit` (rate-limited screenshot queue) from the
  capture-management module,
* `ContentScriptManager.ensureContentScript` and
  `ContentScriptManager.captureWebsite` from `options.js`,
* `pageMonitor.renderPage` from the page-monitoring modules,
* `parseUrl` / `createFolderStructure` from `modules/utils.js`.

Time is a logical clock in milliseconds (`Nat`); host-browser calls
(`chrome.*`, `Date.now`, timers) are modelled as environment parameters
giving each call's outcome, since the code only observes their results.
-/

namespace SiteScribe

/-- JS `string.startsWith(p)`: `p`'s characters are a prefix of `s`'s. -/
def jsStartsWith (s p : String) : Bool :=
  p.toList.isPrefixOf s.toList

/-! ## Rate-limited screenshot queue (`screenshotRateLimit`)

The source keeps a FIFO `queue` of pending `{resolve, reject}` entries, a
`lastCapture` timestamp and a `minDelay` of 1000 ms.  `process()` drains the
queue: for each entry it waits `max(0, lastCapture + minDelay - now)`, calls
`chrome.tabs.captureVisibleTab`, and on success sets
`lastCapture = Date.now()` and resolves; on failure it rejects without
touching `lastCapture`.

We model one queue entry's underlying screenshot call by how long it takes
and whether it resolves, and the mutable fields by an explicit state.
-/

namespace ScreenshotRateLimit

/-- Minimum delay between captures in milliseconds (`minDelay: 1000`). -/
def minDelay : Nat := 1000

/-- Outcome of one `chrome.tabs.captureVisibleTab` call: how many
milliseconds it takes to settle, and whether it resolves (`ok = true`)
or rejects (`ok = false`). -/
structure ActionSpec where
  duration : Nat
  ok : Bool
deriving Repr, DecidableEq

/-- The queue's mutable fields relevant to timing: `lastCapture` and the
current logical clock (`Date.now()` at this point of the loop). -/
structure QState where
  lastCapture : Nat
  now : Nat
deriving Repr, DecidableEq

/-- One iteration of the `while` loop in `screenshotRateLimit.process`:
compute `timeToWait = max(0, lastCapture + minDelay - now)`, sleep that
long, start the screenshot call, and on success record its completion time
as the new `lastCapture` (a rejection leaves `lastCapture` unchanged).
Returns the start time of the action together with the state after the
iteration. -/
def runEntry (s : QState) (a : ActionSpec) : Nat × QState :=
  let timeToWait := max 0 (s.lastCapture + minDelay - s.now)
  let start := s.now + timeToWait
  let fin := start + a.duration
  (start, { lastCapture := if a.ok then fin else s.lastCapture, now := fin })

/-- The drain loop of `screenshotRateLimit.process`: entries are popped
with `queue.shift()` in FIFO order until the queue is empty.  Returns the
list of start times of the executed actions (index-aligned with the queue)
and the final state. -/
def processQueue (s : QState) : List ActionSpec → List Nat × QState
  | [] => ([], s)
  | a :: rest =>
    let r := runEntry s a
    let rec' := processQueue r.2 rest
    (r.1 :: rec'.1, rec'.2)

end ScreenshotRateLimit

/-! ## Content-script readiness (`ContentScriptManager.ensureContentScript`)

The source loops `attempt = 1 .. MAX_ATTEMPTS (= 3)`.  Each attempt:
send a `ping` (resolving to a response or rejecting on
`chrome.runtime.lastError` / a 1 s timeout); a `'pong'` response returns
`true` at once; otherwise inject `content.js`, wait 500 ms, and re-ping.
A `'pong'` verification returns `true`; a thrown error (injection failure
or verification rejection) is caught and, when `attempt < MAX_ATTEMPTS`,
waits `1000 * attempt` ms before the next attempt; a verification that
resolves without `'pong'` just falls through to the next attempt with no
backoff.  After the loop the function returns `false`.
-/

namespace ContentScriptManager

/-- Result of one `ping` round-trip: the expected `'pong'` response, some
other resolved response, or a rejection (`chrome.runtime.lastError` or the
1 s timeout). -/
inductive ProbeResult
  | pong
  | other
  | rejected
deriving Repr, DecidableEq

/-- The host-environment outcomes one attempt can observe: the initial
probe, whether `chrome.scripting.executeScript` resolves, and the
post-injection verification probe. -/
structure AttemptEnv where
  probe : ProbeResult
  injectOk : Bool
  verify : ProbeResult
deriving Repr, DecidableEq

/-- How one attempt of the loop body ends: returned `true`, threw (caught
by the attempt's `catch`, which triggers the backoff), or fell through
because verification resolved without `'pong'`. -/
inductive AttemptOutcome
  | success
  | threw
  | noPong
deriving Repr, DecidableEq

/-- `MAX_ATTEMPTS = 3`. -/
def MAX_ATTEMPTS : Nat := 3

/-- One iteration of the attempt loop body. -/
def runAttempt (e : AttemptEnv) : AttemptOutcome :=
  match e.probe with
  | .pong => .success
  | _ =>
    if e.injectOk then
      match e.verify with
      | .pong => .success
      | .other => .noPong
      | .rejected => .threw
    else .threw

/-- The attempt loop, with `fuel` iterations remaining and `attempt` the
current 1-based attempt number.  Returns the final boolean result, the
number of attempts made, and the list of backoff waits (in ms) performed
between consecutive attempts. -/
def ensureLoop (env : Nat → AttemptEnv) : Nat → Nat → Bool × Nat × List Nat
  | 0, _ => (false, 0, [])
  | fuel + 1, attempt =>
    match runAttempt (env attempt) with
    | .success => (true, 1, [])
    | .threw =>
      let r := ensureLoop env fuel (attempt + 1)
      (r.1, r.2.1 + 1,
        if attempt < MAX_ATTEMPTS then (1000 * attempt) :: r.2.2 else r.2.2)
    | .noPong =>
      let r := ensureLoop env fuel (attempt + 1)
      (r.1, r.2.1 + 1, r.2.2)

/-- `ContentScriptManager.ensureContentScript`, as a function of the
per-attempt host outcomes. -/
def ensureContentScript (env : Nat → AttemptEnv) : Bool × Nat × List Nat :=
  ensureLoop env MAX_ATTEMPTS 1

end ContentScriptManager

/-! ## Capture orchestration (`captureWebsite`)

`captureWebsite` (both the standalone one and
`ContentScriptManager.captureWebsite` — their capture-set logic is
identical) builds a `captures` array of entries with a `type` field, pushes
a `script_data` entry only when `settings.captureScripts ||
settings.captureNetworkRequests`, filters it by the user's
`captureFormats` toggles, downloads each enabled capture inside its own
`try`/`catch`, and finally records
`formats: enabledCaptures.map(c => c.type)`.

`settings.captureFormats[capture.type]` is a JS object lookup whose
missing keys are falsy, modelled by a total function `String → Bool`.
Captures are identified by their `type` string.
-/

namespace CaptureWebsite

/-- The defaulted settings object read from `chrome.storage.sync`. -/
structure Settings where
  captureFormats : String → Bool
  captureScripts : Bool
  captureNetworkRequests : Bool
  maxNetworkRequests : Nat

/-- The `type` fields of the `captures` array literal, in build order. -/
def baseCaptureTypes : List String :=
  ["metadata", "screenshot_visible", "screenshot_full", "mhtml", "html",
   "text", "markdown", "readability"]

/-- The full captures array: the base entries plus a `script_data` entry
pushed only when script or network capture is configured. -/
def capturesList (s : Settings) : List String :=
  baseCaptureTypes ++
    (if s.captureScripts || s.captureNetworkRequests then ["script_data"]
     else [])

/-- The filter predicate applied to each capture:
`metadata`/`script_data` always pass; `screenshot*` types pass when the
`screenshot` toggle is on; otherwise the capture's own key decides. -/
def captureEnabled (s : Settings) (t : String) : Bool :=
  if t = "metadata" || t = "script_data" then true
  else if jsStartsWith t "screenshot" && s.captureFormats "screenshot" then true
  else s.captureFormats t

/-- `enabledCaptures = captures.filter(...)`. -/
def enabledCaptures (s : Settings) : List String :=
  (capturesList s).filter (captureEnabled s)

/-- The download loop: each enabled capture runs inside its own
`try`/`catch`; a successful iteration writes its file, a failing one is
logged and skipped, and the loop continues either way.  `ok t` says whether
capture `t`'s production and download succeed.  Returns the types actually
written. -/
def processCaptures (ok : String → Bool) : List String → List String
  | [] => []
  | t :: rest =>
    if ok t then t :: processCaptures ok rest else processCaptures ok rest

/-- The types written by one run of the download loop. -/
def savedCaptures (s : Settings) (ok : String → Bool) : List String :=
  processCaptures ok (enabledCaptures s)

/-- `formats` field of the capture record: `enabledCaptures.map(c => c.type)`,
computed after the download loop without consulting its outcomes. -/
def captureRecordFormats (s : Settings) : List String :=
  enabledCaptures s

/-- `tab.url.startsWith('chrome://') || tab.url.startsWith('chrome-extension://')`. -/
def restrictedUrl (url : String) : Bool :=
  jsStartsWith url "chrome://" || jsStartsWith url "chrome-extension://"

/-- Host outcomes observed by the early phase of
`ContentScriptManager.captureWebsite`: whether `chrome.tabs.get` resolves,
the tab's URL, and what `ensureContentScript` returned. -/
structure EarlyEnv where
  tabOk : Bool
  tabUrl : String
  agentReady : Bool

/-- How the early phase of `ContentScriptManager.captureWebsite` ends. -/
inductive Phase
  | abortedTabError
  | restrictedSkip
  | abortedAgentNotReady
  | proceeded
deriving Repr, DecidableEq

/-- The early phase of `ContentScriptManager.captureWebsite`: a
`chrome.tabs.get` failure is caught by the surrounding global `catch`
(no notification); a restricted-scheme URL returns silently; a `false`
from `ensureContentScript` calls `chrome.notifications.create` (the only
call site in the module) and returns; otherwise the capture proceeds.
The second component records whether the notification was emitted. -/
def captureEarly (e : EarlyEnv) : Phase × Bool :=
  if !e.tabOk then (.abortedTabError, false)
  else if restrictedUrl e.tabUrl then (.restrictedSkip, false)
  else if !e.agentReady then (.abortedAgentNotReady, true)
  else (.proceeded, false)

end CaptureWebsite

/-! ## Page stability monitor (`pageMonitor.renderPage`)

Two variants of the page-monitoring module exist in the repository; their
`renderPage` logic agrees on guard, sweep, flag check and `finally` reset,
and the richer variant additionally validates the tab, pings (re-injecting
on failure), guards the dimension request with a 5 s timeout falling back
to height 5000, and swallows individual scroll-step failures.  We model
both: `renderPageA` for the simpler module and `renderPageB` for the
richer one.

`return` inside the `try` still runs the `finally` block, so every exit
path taken after `page.isRendering = true` resets the flag.
-/

namespace PageMonitor

/-- One entry of `pageMonitor.activePages`
(`{url, lastCapture, contentHash, isRendering, significantChanges}`). -/
structure PageState where
  url : String
  lastCapture : Nat
  contentHash : String
  isRendering : Bool
  significantChanges : Bool
deriving Repr, DecidableEq

/-- `minScrollStep = 200`. -/
def minScrollStep : Nat := 200

/-- `renderTimeout = 5000`. -/
def renderTimeout : Nat := 5000

/-- `scrollInterval = 500`. -/
def scrollInterval : Nat := 500

/-- The positions visited by the sweep loop
`while (lastScrollPosition < height) { scrollTo(lastScrollPosition);
lastScrollPosition += minScrollStep }`. -/
def scrollSweep (pos height : Nat) : List Nat :=
  if pos < height then pos :: scrollSweep (pos + minScrollStep) height
  else []
termination_by height - pos
decreasing_by simp [minScrollStep]; omega

/-- What one `renderPage` call returns and leaves behind: its boolean
result, the page's new monitoring state (`none` when the page was not
monitored), the scroll positions actually attempted, and whether the
dimension request was sent. -/
structure RenderResult where
  result : Bool
  page : Option PageState
  scrollSteps : List Nat
  dimensionRequested : Bool
deriving Repr

/-- Host outcomes for the simpler variant: whether `getPageDimensions`
resolves (with which height), which scroll step (0-based) first throws, if
any, and `Date.now()` at the flag check. -/
structure RenderEnvA where
  dimensions : Option Nat
  scrollFailures : Nat → Bool
  now : Nat

/-- Index of the first scroll step whose `sendMessage` throws, among the
first `n` steps. -/
def firstFailure (fail : Nat → Bool) (n : Nat) : Option Nat :=
  (List.range n).find? fail

/-- `renderPage` of the simpler page-monitoring module: the
`!page || page.isRendering` guard returns `false` untouched; the dimension
request rejecting jumps to `catch`; a scroll-step rejection aborts the
sweep (its `sendMessage` is not individually guarded there); otherwise the
sweep and the settle wait finish and the `significantChanges` flag decides
the result.  The `finally` block resets `isRendering` on every such path. -/
def renderPageA (page? : Option PageState) (env : RenderEnvA) : RenderResult :=
  match page? with
  | none => ⟨false, none, [], false⟩
  | some page =>
    if page.isRendering then ⟨false, some page, [], false⟩
    else
      match env.dimensions with
      | none => ⟨false, some { page with isRendering := false }, [], true⟩
      | some height =>
        let steps := scrollSweep 0 height
        match firstFailure env.scrollFailures steps.length with
        | some i =>
          ⟨false, some { page with isRendering := false },
            steps.take (i + 1), true⟩
        | none =>
          if page.significantChanges then
            ⟨true,
              some { page with
                significantChanges := false
                lastCapture := env.now
                isRendering := false },
              steps, true⟩
          else
            ⟨false, some { page with isRendering := false }, steps, true⟩

/-- Host outcomes for the richer variant: whether `chrome.tabs.get`
resolves with a `complete` tab, whether the `ping` resolves, whether
re-injection resolves when the ping failed, whether the dimension request
beats its 5 s timeout (and with which height), and `Date.now()` at the
flag check.  Individual scroll-step failures are caught and skipped there,
so they are not part of the environment. -/
structure RenderEnvB where
  tabReady : Bool
  pingOk : Bool
  reinjectOk : Bool
  dimensions : Option Nat
  now : Nat

/-- Fallback height used when the dimension request times out or rejects. -/
def fallbackHeight : Nat := 5000

/-- `renderPage` of the richer page-monitoring module. -/
def renderPageB (page? : Option PageState) (env : RenderEnvB) : RenderResult :=
  match page? with
  | none => ⟨false, none, [], false⟩
  | some page =>
    if page.isRendering then ⟨false, some page, [], false⟩
    else
      if !env.tabReady then ⟨false, some { page with isRendering := false }, [], false⟩
      else if !env.pingOk && !env.reinjectOk then
        ⟨false, some { page with isRendering := false }, [], false⟩
      else
        let height := env.dimensions.getD fallbackHeight
        let steps := scrollSweep 0 height
        if page.significantChanges then
          ⟨true,
            some { page with
              significantChanges := false
              lastCapture := env.now
              isRendering := false },
            steps, true⟩
        else
          ⟨false, some { page with isRendering := false }, steps, true⟩

end PageMonitor

/-! ## Folder naming (`parseUrl` / `createFolderStructure`)

`parseUrl` reads `protocol`, `hostname`, `pathname` and `search` off a
host `URL` object; we model that constructor for
`scheme://host[/path][?query][#fragment]` URLs, splitting on the literal
delimiters, with the empty pathname normalised to `"/"` as the host API
does.  JS `split(c)` (single-character separator) is `splitOnChar`;
`filter(Boolean)` on strings keeps the non-empty ones.
`new Date().toISOString()` is passed in as the `timestamp` argument. -/

namespace Utils

/-- JS `string.split(c)` for a single-character separator. -/
def splitOnChar (c : Char) : List Char → List (List Char)
  | [] => [[]]
  | x :: rest =>
    match splitOnChar c rest with
    | [] => [[]]
    | g :: gs => if x = c then [] :: g :: gs else (x :: g) :: gs

/-- The fields of the host `URL` object that the source reads. -/
structure URLObj where
  protocol : String
  hostname : String
  pathname : String
  search : String
deriving Repr, DecidableEq

/-- Characters that end the host part of a URL. -/
def hostEnd (c : Char) : Bool := c = '/' || c = '?' || c = '#'

/-- Characters that end the path part of a URL. -/
def pathEnd (c : Char) : Bool := c = '?' || c = '#'

/-- The host `URL` constructor, for `scheme://host[/path][?query][#fragment]`
URLs: `protocol` keeps the trailing colon, `pathname` is `"/"` when the URL
has no path, `search` starts at `'?'` and excludes any fragment. -/
def newURL (url : String) : URLObj :=
  let cs := url.toList
  let scheme := cs.takeWhile (· ≠ ':')
  let rest := (cs.dropWhile (· ≠ ':')).drop 3
  let host := rest.takeWhile (fun c => !hostEnd c)
  let afterHost := rest.dropWhile (fun c => !hostEnd c)
  let path := afterHost.takeWhile (fun c => !pathEnd c)
  let afterPath := afterHost.dropWhile (fun c => !pathEnd c)
  let search := afterPath.takeWhile (· ≠ '#')
  { protocol := String.mk (scheme ++ [':'])
    hostname := String.mk host
    pathname := if path.isEmpty then "/" else String.mk path
    search := String.mk search }

/-- `domain` object built by `parseUrl`: the full hostname, the last two
dot-segments joined (`slice(-2).join('.')`), and the remaining leading
segments (`slice(0, -2).join('.')`) when there are more than two. -/
structure Domain where
  full : String
  main : String
  sub : String
deriving Repr, DecidableEq

/-- The record `parseUrl` returns. -/
structure ParsedUrl where
  fullUrl : String
  protocol : String
  domain : Domain
  path : List String
  query : String
  timestamp : String
deriving Repr, DecidableEq

/-- `parseUrl` from `modules/utils.js`.  `protocol.replace(':', '')`
strips the colon the URL object's `protocol` carries, so we keep the bare
scheme; `pathname.split('/').filter(Boolean)` keeps non-empty segments. -/
def parseUrl (url timestamp : String) : ParsedUrl :=
  let urlObj := newURL url
  let domainParts := (splitOnChar '.' urlObj.hostname.toList).map String.mk
  { fullUrl := url
    protocol := String.mk (urlObj.protocol.toList.takeWhile (· ≠ ':'))
    domain :=
      { full := urlObj.hostname
        main := String.intercalate "."
          (domainParts.drop (domainParts.length - 2))
        sub := if domainParts.length > 2 then
            String.intercalate "." (domainParts.take (domainParts.length - 2))
          else "" }
    path := ((splitOnChar '/' urlObj.pathname.toList).map String.mk).filter
      (· ≠ "")
    query := urlObj.search
    timestamp := timestamp }

/-- `timestamp.replace(/[:.]/g, '-')`. -/
def sanitizeTime (t : String) : String :=
  String.mk (t.toList.map (fun c => if c = ':' || c = '.' then '-' else c))

/-- The nested `url` record of the bundle metadata. -/
structure UrlMeta where
  full : String
  domain : String
  mainDomain : String
  subdomain : String
  path : String
  query : String
deriving Repr, DecidableEq

/-- The bundle metadata record; the page metadata blob is opaque to the
function and passed through unchanged. -/
structure FolderMetadata where
  captureTime : String
  url : UrlMeta
  page : String
deriving Repr, DecidableEq

/-- What `createFolderStructure` returns. -/
structure FolderStructure where
  folderPath : String
  metadata : FolderMetadata
deriving Repr, DecidableEq

/-- `createFolderStructure` from `modules/utils.js`: sanitize the
timestamp, build `['webData', domain.main, domain.sub, ...path]`, drop
empty segments (`filter(Boolean)`), and join with `'/'`. -/
def createFolderStructure (urlComponents : ParsedUrl) (pageMetadata : String) :
    FolderStructure :=
  let timestamp := sanitizeTime urlComponents.timestamp
  let domain := urlComponents.domain
  let path := urlComponents.path
  let parts := (["webData", domain.main, domain.sub] ++ path).filter (· ≠ "")
  { folderPath := String.intercalate "/" parts
    metadata :=
      { captureTime := timestamp
        url :=
          { full := urlComponents.fullUrl
            domain := domain.full
            mainDomain := domain.main
            subdomain := domain.sub
            path := String.intercalate "/" path
            query := urlComponents.query }
        page := pageMetadata } }

end Utils

/-! ## Theorems -/

namespace ScreenshotRateLimit

/-- The start time produced by one loop iteration is
`max now (lastCapture + minDelay)`. -/
theorem runEntry_start (s : QState) (a : ActionSpec) :
    (runEntry s a).1 = max s.now (s.lastCapture + minDelay) := by
  simp only [runEntry, Nat.max_def]
  split <;> split <;> omega

/-- After one iteration the clock reads the action's completion time. -/
theorem runEntry_now (s : QState) (a : ActionSpec) :
    (runEntry s a).2.now = (runEntry s a).1 + a.duration := by
  simp [runEntry]

/-- Executing one entry advances the clock at least to the start time. -/
theorem runEntry_start_le_now (s : QState) (a : ActionSpec) :
    (runEntry s a).1 ≤ (runEntry s a).2.now := by
  rw [runEntry_now]; omega

/-- One action per queue entry: the start-time trace has the queue's
length. -/
theorem processQueue_length (s : QState) (q : List ActionSpec) :
    (processQueue s q).1.length = q.length := by
  induction q generalizing s with
  | nil => rfl
  | cons a rest ih => simp [processQueue, ih]

/-- On success `lastCapture` becomes the completion time (`start +
duration`); on rejection it is left unchanged — this mirrors the fact that
`this.lastCapture = Date.now()` sits inside the `try` after the awaited
capture, while the `catch` only rejects. -/
theorem runEntry_lastCapture_eq (s : QState) (a : ActionSpec) :
    (runEntry s a).2.lastCapture =
      if a.ok then (runEntry s a).1 + a.duration else s.lastCapture := by
  simp [runEntry]

/-- Consecutive loop iterations: the next start is never earlier, and when
the earlier action succeeded it is at least `minDelay` later. -/
theorem runEntry_consecutive (s : QState) (a b : ActionSpec) :
    (runEntry s a).1 ≤ (runEntry (runEntry s a).2 b).1 ∧
      (a.ok = true →
        (runEntry s a).1 + minDelay ≤ (runEntry (runEntry s a).2 b).1) := by
  have hnow := runEntry_now s a
  have hnext := runEntry_start (runEntry s a).2 b
  constructor
  · have h1 : (runEntry s a).2.now ≤ (runEntry (runEntry s a).2 b).1 := by
      rw [hnext]; exact le_max_left _ _
    omega
  · intro hok
    have hlc : (runEntry s a).2.lastCapture = (runEntry s a).1 + a.duration := by
      rw [runEntry_lastCapture_eq, hok, if_pos rfl]
    have h2 : (runEntry s a).2.lastCapture + minDelay ≤
        (runEntry (runEntry s a).2 b).1 := by
      rw [hnext]; exact le_max_right _ _
    omega

/-- The start-time trace, zipped against the queue, is a chain: starts are
monotone, and after a successful action the next start is at least
`minDelay` later. -/
theorem processQueue_chain (s : QState) (q : List ActionSpec) :
    List.Chain' (fun p p' : ActionSpec × Nat =>
        p.2 ≤ p'.2 ∧ (p.1.ok = true → p.2 + minDelay ≤ p'.2))
      (q.zip (processQueue s q).1) := by
  induction q generalizing s with
  | nil => simp [processQueue]
  | cons a rest ih =>
    cases rest with
    | nil => simp [processQueue]
    | cons b rest' =>
      have h := ih (runEntry s a).2
      simp only [processQueue, List.zip_cons_cons] at h ⊢
      exact List.Chain'.cons (runEntry_consecutive s a b) h

/-- **C1, counterexample.**  The claim "the start times of any two
consecutively executed actions are at least `minDelay` apart" fails once an
action rejects: with the clock at 2000 ms and no prior capture, a first
queued screenshot that rejects instantly is followed by a second one
starting at the same millisecond — `lastCapture` was not advanced by the
rejected call, so no wait is imposed. -/
theorem c1_counterexample :
    (processQueue ⟨0, 2000⟩ [⟨0, false⟩, ⟨0, true⟩]).1 = [2000, 2000] ∧
    ¬ List.Chain' (fun t t' : Nat => t + minDelay ≤ t')
      (processQueue ⟨0, 2000⟩ [⟨0, false⟩, ⟨0, true⟩]).1 := by
  refine ⟨rfl, ?_⟩
  have h : (processQueue ⟨0, 2000⟩ [⟨0, false⟩, ⟨0, true⟩]).1 = [2000, 2000] :=
    rfl
  rw [h]
  simp [minDelay]

/-- **C1, amended.**  Enqueued screenshot actions execute strictly in call
(FIFO) order — the drain loop pops `queue.shift()` once per entry, so the
start-time trace is index-aligned with the queue and monotone — and the
start times of two consecutive actions are at least `minDelay` (1000 ms)
apart whenever the earlier of the two resolved successfully; a rejected
action does not advance `lastCapture`, so its successor may start sooner. -/
theorem c1_queue_fifo_and_spacing (s : QState) (q : List ActionSpec) :
    (processQueue s q).1.length = q.length ∧
    List.Chain' (fun p p' : ActionSpec × Nat =>
        p.2 ≤ p'.2 ∧ (p.1.ok = true → p.2 + minDelay ≤ p'.2))
      (q.zip (processQueue s q).1) :=
  ⟨processQueue_length s q, processQueue_chain s q⟩

/-- **C3, counterexample.**  The claim "lastActionTime equals the action's
completion time regardless of whether the action resolved or rejected" is
false: a rejected capture leaves `lastCapture` untouched, because
`this.lastCapture = Date.now()` sits inside the `try` after the awaited
call and the `catch` only rejects.  Here the rejected action completes at
2005 ms but `lastCapture` stays 0. -/
theorem c3_counterexample :
    (runEntry ⟨0, 2000⟩ ⟨5, false⟩).2.now = 2005 ∧
    (runEntry ⟨0, 2000⟩ ⟨5, false⟩).2.lastCapture ≠ 2005 := by decide

/-- **C3, amended.**  After the queue executes an entry's action,
`lastCapture` equals the action's completion time exactly when the action
resolved; when it rejected, `lastCapture` keeps its previous value, so a
failed action does not reset the rate-limit clock. -/
theorem c3_lastCapture_success_only (s : QState) (a : ActionSpec) :
    (runEntry s a).2.lastCapture =
      if a.ok then (runEntry s a).2.now else s.lastCapture := by
  simp [runEntry]

end ScreenshotRateLimit

namespace ContentScriptManager

/-- An attempt whose probe rejects and whose injection or verification then
fails ends in the `catch` branch. -/
theorem runAttempt_threw (e : AttemptEnv) (hp : e.probe = .rejected)
    (hv : e.injectOk = false ∨ e.verify = .rejected) :
    runAttempt e = .threw := by
  cases hv with
  | inl h => simp [runAttempt, hp, h]
  | inr h => cases hinj : e.injectOk <;> simp [runAttempt, hp, h, hinj]

/-- **C4.**  If the liveness probe rejects on every attempt and each
injection or post-injection verification also fails, then
`ensureContentScript` makes exactly 3 attempts, waits `attempt * 1000` ms
between consecutive attempts (1000 ms after attempt 1, 2000 ms after
attempt 2), and finally returns `false` — the loop's `catch` absorbs every
error, so nothing is thrown to the caller. -/
theorem c4_three_attempts_then_false (env : Nat → AttemptEnv)
    (h : ∀ n, (env n).probe = .rejected ∧
        ((env n).injectOk = false ∨ (env n).verify = .rejected)) :
    ensureContentScript env = (false, 3, [1000 * 1, 1000 * 2]) := by
  have h1 := runAttempt_threw (env 1) (h 1).1 (h 1).2
  have h2 := runAttempt_threw (env 2) (h 2).1 (h 2).2
  have h3 := runAttempt_threw (env 3) (h 3).1 (h 3).2
  simp [ensureContentScript, ensureLoop, MAX_ATTEMPTS, h1, h2, h3]

/-- **C4, witness.**  A concrete always-failing environment: every probe
and every verification reject, injection succeeds. -/
theorem c4_witness :
    ensureContentScript (fun _ => ⟨.rejected, true, .rejected⟩)
      = (false, 3, [1000 * 1, 1000 * 2]) :=
  c4_three_attempts_then_false (fun _ => ⟨.rejected, true, .rejected⟩)
    (fun _ => ⟨rfl, Or.inr rfl⟩)

end ContentScriptManager

namespace CaptureWebsite

/-- The download loop writes exactly the enabled captures whose own
iteration succeeds: it is a filter of the enabled list. -/
theorem processCaptures_eq_filter (ok : String → Bool) (l : List String) :
    processCaptures ok l = l.filter ok := by
  induction l with
  | nil => rfl
  | cons a rest ih => simp [processCaptures, List.filter_cons, ih]

/-- Membership in the enabled capture set unfolds to membership in the
built captures array plus the filter predicate. -/
theorem mem_enabled (s : Settings) (t : String) :
    t ∈ enabledCaptures s ↔ t ∈ capturesList s ∧ captureEnabled s t = true :=
  List.mem_filter

/-- **C2, counterexample.**  With mhtml, html, text and markdown enabled
(plus the always-present metadata and, with scripts/network on,
script_data), an MHTML capture that throws while every sibling succeeds
leaves exactly the siblings written — but the capture record's `formats`
field is `enabledCaptures.map(c => c.type)`, computed without consulting
the per-capture outcomes, so it still lists `mhtml`.  The record therefore
does not contain "exactly the kinds that succeeded". -/
theorem c2_counterexample :
    savedCaptures
        { captureFormats := fun t =>
            t == "mhtml" || t == "html" || t == "text" || t == "markdown",
          captureScripts := true, captureNetworkRequests := true,
          maxNetworkRequests := 100 }
        (fun t => t != "mhtml")
      = ["metadata", "html", "text", "markdown", "script_data"] ∧
    captureRecordFormats
        { captureFormats := fun t =>
            t == "mhtml" || t == "html" || t == "text" || t == "markdown",
          captureScripts := true, captureNetworkRequests := true,
          maxNetworkRequests := 100 }
      = ["metadata", "mhtml", "html", "text", "markdown", "script_data"] := by
  decide

/-- **C2, amended.**  Each enabled capture runs in its own `try`/`catch`,
so a kind is written exactly when it is enabled and its own operation
succeeds — the failure of one kind never prevents the others from being
captured and written — but the capture record's `formats` list is the full
enabled set, failed kinds included, not the set of kinds that succeeded. -/
theorem c2_capture_isolation (s : Settings) (ok : String → Bool) :
    (∀ t, t ∈ savedCaptures s ok ↔ t ∈ enabledCaptures s ∧ ok t = true) ∧
    captureRecordFormats s = enabledCaptures s := by
  refine ⟨fun t => ?_, rfl⟩
  rw [savedCaptures, processCaptures_eq_filter, List.mem_filter]

/-- **C5, counterexample.**  The claim "the enabled capture set always
contains the script_data kind" fails when both `captureScripts` and
`captureNetworkRequests` are disabled: the `script_data` entry is only
pushed onto the captures array under
`settings.captureScripts || settings.captureNetworkRequests`, so with both
off the always-keep filter clause has nothing to keep (here even with
every `captureFormats` toggle on). -/
theorem c5_counterexample :
    "metadata" ∈ enabledCaptures
        { captureFormats := fun _ => true, captureScripts := false,
          captureNetworkRequests := false, maxNetworkRequests := 100 } ∧
    "script_data" ∉ enabledCaptures
        { captureFormats := fun _ => true, captureScripts := false,
          captureNetworkRequests := false, maxNetworkRequests := 100 } := by
  decide

/-- **C5, amended.**  For every settings configuration the enabled capture
set contains `metadata`; it contains `script_data` exactly when script or
network capture is configured; and every other kind is present exactly
when its toggle is enabled — the two screenshot kinds via the shared
`screenshot` toggle (or their own key, which the final filter clause also
consults), the rest via their own `captureFormats` key. -/
theorem c5_always_on_kinds (s : Settings) :
    "metadata" ∈ enabledCaptures s ∧
    ("script_data" ∈ enabledCaptures s ↔
      (s.captureScripts || s.captureNetworkRequests) = true) ∧
    ("screenshot_visible" ∈ enabledCaptures s ↔
      (s.captureFormats "screenshot" ||
        s.captureFormats "screenshot_visible") = true) ∧
    ("screenshot_full" ∈ enabledCaptures s ↔
      (s.captureFormats "screenshot" ||
        s.captureFormats "screenshot_full") = true) ∧
    ("mhtml" ∈ enabledCaptures s ↔ s.captureFormats "mhtml" = true) ∧
    ("html" ∈ enabledCaptures s ↔ s.captureFormats "html" = true) ∧
    ("text" ∈ enabledCaptures s ↔ s.captureFormats "text" = true) ∧
    ("markdown" ∈ enabledCaptures s ↔ s.captureFormats "markdown" = true) ∧
    ("readability" ∈ enabledCaptures s ↔
      s.captureFormats "readability" = true) := by
  refine ⟨?_, ?_, ?_, ?_, ?_, ?_, ?_, ?_, ?_⟩ <;>
    rw [mem_enabled] <;>
    simp [capturesList, baseCaptureTypes, captureEnabled, jsStartsWith]

/-- **C6.**  In `ContentScriptManager.captureWebsite`: a restricted-scheme
URL (`chrome://` or `chrome-extension://`) returns before any capture work
with no notification; a `false` from `ensureContentScript` returns before
content collection after emitting the notification; and the notification
is emitted on that path and no other. -/
theorem c6_notification_discipline (e : EarlyEnv) :
    (e.tabOk = true → restrictedUrl e.tabUrl = true →
      captureEarly e = (Phase.restrictedSkip, false)) ∧
    (e.tabOk = true → restrictedUrl e.tabUrl = false → e.agentReady = false →
      captureEarly e = (Phase.abortedAgentNotReady, true)) ∧
    ((captureEarly e).2 = true ↔
      (captureEarly e).1 = Phase.abortedAgentNotReady) := by
  obtain ⟨tabOk, url, ready⟩ := e
  cases tabOk <;> cases ready <;>
    cases hr : restrictedUrl url <;>
    simp [captureEarly, hr]

/-- **C6, witness.**  An accessible, unrestricted page whose content
script cannot be made ready aborts with the notification. -/
theorem c6_witness :
    captureEarly ⟨true, "https://a.com", false⟩
      = (Phase.abortedAgentNotReady, true) :=
  (c6_notification_discipline ⟨true, "https://a.com", false⟩).2.1 rfl
    (by decide) rfl

end CaptureWebsite

namespace PageMonitor

/-- **C7.**  A `renderPage` call finding `isRendering` already set — a
sweep for the same page in flight — returns `false` at once, attempts no
scroll step, sends no dimension request, and leaves the page state
untouched; so does a call for a page absent from the monitored-sessions
map.  Both page-monitoring variants behave identically here. -/
theorem c7_renderPage_guard (page : PageState) (envA : RenderEnvA)
    (envB : RenderEnvB) (h : page.isRendering = true) :
    renderPageA (some page) envA = ⟨false, some page, [], false⟩ ∧
    renderPageB (some page) envB = ⟨false, some page, [], false⟩ ∧
    renderPageA none envA = ⟨false, none, [], false⟩ ∧
    renderPageB none envB = ⟨false, none, [], false⟩ := by
  simp [renderPageA, renderPageB, h]

/-- **C7, witness.**  A monitored page mid-sweep, and an unmonitored
page, in a healthy environment. -/
theorem c7_witness :
    renderPageA (some ⟨"u", 0, "", true, false⟩) ⟨some 400, fun _ => false, 7⟩
      = ⟨false, some ⟨"u", 0, "", true, false⟩, [], false⟩ ∧
    renderPageB (some ⟨"u", 0, "", true, false⟩) ⟨true, true, true, some 400, 7⟩
      = ⟨false, some ⟨"u", 0, "", true, false⟩, [], false⟩ ∧
    renderPageA none ⟨some 400, fun _ => false, 7⟩ = ⟨false, none, [], false⟩ ∧
    renderPageB none ⟨true, true, true, some 400, 7⟩
      = ⟨false, none, [], false⟩ :=
  c7_renderPage_guard ⟨"u", 0, "", true, false⟩ ⟨some 400, fun _ => false, 7⟩
    ⟨true, true, true, some 400, 7⟩ rfl

/-- A positive page height makes the sweep attempt at least one scroll
step. -/
theorem scrollSweep_pos_ne_nil (h : Nat) (hpos : 0 < h) :
    scrollSweep 0 h ≠ [] := by
  rw [scrollSweep]
  simp [hpos]

/-- **C8.**  When a sweep actually runs to the flag check (page monitored
and not mid-render; for the simpler variant the dimension request resolves
and no scroll step throws; for the richer one the tab is ready and ping or
re-injection succeeds), `renderPage` returns exactly the
`significantChanges` flag: when it was set, the flag is cleared and
`lastCapture` becomes the current time; when it was not, the call reports
`false` even though the sweep's scroll steps (non-empty for any positive
height) were all performed. -/
theorem c8_render_result_flag (page : PageState) (hgt : Nat)
    (envA : RenderEnvA) (envB : RenderEnvB)
    (h : page.isRendering = false)
    (hA1 : envA.dimensions = some hgt)
    (hA2 : firstFailure envA.scrollFailures (scrollSweep 0 hgt).length = none)
    (hB1 : envB.tabReady = true)
    (hB2 : envB.pingOk = true ∨ envB.reinjectOk = true) :
    ((renderPageA (some page) envA).result = page.significantChanges ∧
     (renderPageB (some page) envB).result = page.significantChanges) ∧
    (page.significantChanges = true →
      (renderPageA (some page) envA).page = some { page with
          significantChanges := false, lastCapture := envA.now,
          isRendering := false } ∧
      (renderPageB (some page) envB).page = some { page with
          significantChanges := false, lastCapture := envB.now,
          isRendering := false }) ∧
    (page.significantChanges = false →
      renderPageA (some page) envA =
        ⟨false, some { page with isRendering := false },
          scrollSweep 0 hgt, true⟩ ∧
      renderPageB (some page) envB =
        ⟨false, some { page with isRendering := false },
          scrollSweep 0 (envB.dimensions.getD fallbackHeight), true⟩) ∧
    (0 < hgt → scrollSweep 0 hgt ≠ []) := by
  refine ⟨?_, ?_, ?_, fun hp => scrollSweep_pos_ne_nil hgt hp⟩ <;>
    cases hsig : page.significantChanges <;>
      rcases hB2 with hB2 | hB2 <;>
        simp [renderPageA, renderPageB, h, hA1, hA2, hB1, hB2, hsig]

/-- **C8, witness.**  A monitored page with a pending significant change,
a 400 px height, and no host failures: both variants report the change. -/
theorem c8_witness :
    (renderPageA (some ⟨"u", 0, "", false, true⟩)
        ⟨some 400, fun _ => false, 9⟩).result = true ∧
    (renderPageB (some ⟨"u", 0, "", false, true⟩)
        ⟨true, true, true, some 400, 9⟩).result = true := by
  have h := c8_render_result_flag ⟨"u", 0, "", false, true⟩ 400
    ⟨some 400, fun _ => false, 9⟩ ⟨true, true, true, some 400, 9⟩ rfl rfl
    (by simp [firstFailure, scrollSweep, minScrollStep, List.find?]) rfl
    (Or.inl rfl)
  exact ⟨h.1.1, h.1.2⟩

/-- Every exit of a sweep the simpler variant actually starts — dimension
rejection, a throwing scroll step, or a completed sweep with either flag
value — leaves `isRendering` reset to `false` via the `finally` block. -/
theorem renderPageA_resets (page : PageState) (env : RenderEnvA)
    (h : page.isRendering = false) :
    (renderPageA (some page) env).page.map (fun p => p.isRendering)
      = some false := by
  obtain ⟨dims, sf, now⟩ := env
  cases dims with
  | none => simp [renderPageA, h]
  | some hgt =>
    cases hf : firstFailure sf (scrollSweep 0 hgt).length <;>
      cases hsig : page.significantChanges <;>
        simp [renderPageA, h, hf, hsig]

/-- Every exit of a sweep the richer variant actually starts — tab not
ready, ping and re-injection both failing, dimension timeout with
fallback, or a completed sweep — leaves `isRendering` reset to `false`
via the `finally` block. -/
theorem renderPageB_resets (page : PageState) (env : RenderEnvB)
    (h : page.isRendering = false) :
    (renderPageB (some page) env).page.map (fun p => p.isRendering)
      = some false := by
  obtain ⟨tabR, ping, reinj, dims, now⟩ := env
  cases tabR <;> cases ping <;> cases reinj <;>
    cases hsig : page.significantChanges <;>
      simp [renderPageB, h, hsig]

/-- **C10.**  Any `renderPage` call that begins a sweep (the page is
monitored and not already rendering) ends with the page's `isRendering`
flag `false`, whatever the environment does — every failure path included
— so a failed sweep never blocks subsequent `renderPage` calls for that
page.  Both variants reset the flag in their `finally` block. -/
theorem c10_isRendering_reset (page : PageState) (envA : RenderEnvA)
    (envB : RenderEnvB) (h : page.isRendering = false) :
    (renderPageA (some page) envA).page.map (fun p => p.isRendering)
      = some false ∧
    (renderPageB (some page) envB).page.map (fun p => p.isRendering)
      = some false :=
  ⟨renderPageA_resets page envA h, renderPageB_resets page envB h⟩

/-- **C10, witness.**  A sweep whose host environment fails everywhere —
dimension request rejected, every scroll step throwing, tab not ready —
still ends with `isRendering = false` in both variants. -/
theorem c10_witness :
    (renderPageA (some ⟨"u", 0, "", false, false⟩)
          ⟨none, fun _ => true, 7⟩).page.map
        (fun p => p.isRendering) = some false ∧
    (renderPageB (some ⟨"u", 0, "", false, false⟩)
          ⟨false, false, false, none, 7⟩).page.map
        (fun p => p.isRendering) = some false :=
  c10_isRendering_reset ⟨"u", 0, "", false, false⟩ ⟨none, fun _ => true, 7⟩
    ⟨false, false, false, none, 7⟩ rfl

end PageMonitor

namespace Utils

/-- **C9.**  `parseUrl("https://shop.example.com/a/b?x=1")` splits the
domain into main `example.com` and sub `shop`, keeps the non-empty path
segments `["a", "b"]` in order, and returns the query `"?x=1"`; feeding
the result to `createFolderStructure` yields the folder path
`webData/example.com/shop/a/b`.  Empty segments are dropped (second URL:
an empty subdomain and an empty path segment vanish) and segment order is
preserved. -/
theorem c9_parseUrl_buildPath (ts meta : String) :
    (parseUrl "https://shop.example.com/a/b?x=1" ts).domain.main
      = "example.com" ∧
    (parseUrl "https://shop.example.com/a/b?x=1" ts).domain.sub = "shop" ∧
    (parseUrl "https://shop.example.com/a/b?x=1" ts).path = ["a", "b"] ∧
    (parseUrl "https://shop.example.com/a/b?x=1" ts).query = "?x=1" ∧
    (createFolderStructure (parseUrl "https://shop.example.com/a/b?x=1" ts)
        meta).folderPath = "webData/example.com/shop/a/b" ∧
    (createFolderStructure (parseUrl "https://example.com/a//b" ts)
        meta).folderPath = "webData/example.com/a/b" :=
  ⟨rfl, rfl, rfl, rfl, rfl, rfl⟩

end Utils

end SiteScribe
